/-
Verification of the command/combat/crafting/quest core of a text-adventure
game.  The Python source (game/commands.py, game/combat.py, game/crafting.py,
game/quests.py, game/models.py) is shallowly embedded below: pydantic models
become structures, dictionaries become association lists in insertion order,
mutation becomes explicit state passing, and every call to `random` becomes an
explicit parameter of the embedded function.  Presentation-only decoration
(ASCII art from game/visuals.py) is omitted from the produced strings; the
textual content that the logic itself chooses (descriptions, gate messages)
is kept.  Where the source indexes a dictionary directly (a KeyError on a
missing id, which the data-model invariants rule out), the embedding skips
the missing id.
-/
import Mathlib

set_option maxRecDepth 4000

namespace TextAdventure

/-! ## String helpers

`pyInStr needle hay` is Python's `needle in hay` on strings: `needle` occurs
as a contiguous substring of `hay` (the empty string occurs in everything). -/

def charsStartWith : List Char → List Char → Bool
  | [], _ => true
  | _ :: _, [] => false
  | a :: as, b :: bs => a == b && charsStartWith as bs

def charsContain (needle : List Char) : List Char → Bool
  | [] => needle.isEmpty
  | c :: t => charsStartWith needle (c :: t) || charsContain needle t

def pyInStr (needle hay : String) : Bool :=
  charsContain needle.data hay.data

/-- Python's `str.lower()` (character-wise ASCII case folding, computed over
the character list so that it reduces). -/
def lowerString (s : String) : String :=
  String.mk (s.data.map Char.toLower)

/-- Python's `str.replace(" ", "_")` as used on recipe names. -/
def underscoreSpaces (s : String) : String :=
  String.mk (s.data.map (fun c => if c == ' ' then '_' else c))

/-! ## Data model (game/models.py) -/

inductive Direction
  | north | south | east | west | up | down
  | northeast | northwest | southeast | southwest
deriving DecidableEq, BEq

def Direction.value : Direction → String
  | .north => "north"
  | .south => "south"
  | .east => "east"
  | .west => "west"
  | .up => "up"
  | .down => "down"
  | .northeast => "northeast"
  | .northwest => "northwest"
  | .southeast => "southeast"
  | .southwest => "southwest"

/-- The members of the `Direction` enum, in declaration order. -/
def allDirections : List Direction :=
  [.north, .south, .east, .west, .up, .down,
   .northeast, .northwest, .southeast, .southwest]

/-- `Direction(string)`: `none` models the `ValueError` branch. -/
def parseDirection (s : String) : Option Direction :=
  allDirections.find? (fun d => d.value == s)

inductive ItemType
  | weapon | armor | tool | key | treasure | container | food
  | potion | scroll | misc | material | crafting
deriving DecidableEq, BEq

/-- `ItemType` is a `str` enum in the source; this is its string value. -/
def ItemType.value : ItemType → String
  | .weapon => "weapon"
  | .armor => "armor"
  | .tool => "tool"
  | .key => "key"
  | .treasure => "treasure"
  | .container => "container"
  | .food => "food"
  | .potion => "potion"
  | .scroll => "scroll"
  | .misc => "misc"
  | .material => "material"
  | .crafting => "crafting"

structure Item where
  name : String
  description : String
  item_type : ItemType
  value : Int := 0
  is_takeable : Bool := true
  is_visible : Bool := true
  keywords : List String := []
  use_description : Option String := none
  damage : Int := 0
  armor_value : Int := 0
  healing_value : Int := 0
deriving DecidableEq

structure Equipment where
  weapon : Option String := none
  armor : Option String := none
  helmet : Option String := none
  boots : Option String := none
  gloves : Option String := none
  ring : Option String := none
  amulet : Option String := none
deriving DecidableEq

structure Enemy where
  id : String
  name : String
  enemy_type : String
  description : String
  health : Int
  max_health : Int
  damage : Int
  armor : Int
  experience_reward : Int
  gold_reward : Int
  current_room : String
  is_alive : Bool := true
  aggression_level : Int := 5
  inventory : List String := []
  special_abilities : List String := []
deriving DecidableEq

structure NPC where
  id : String
  name : String
  description : String
  current_room : String
  is_alive : Bool := true
deriving DecidableEq

structure Exit where
  direction : Direction
  destination : String
  is_locked : Bool := false
  required_key : Option String := none
  is_open : Bool := true
  required_level : Int := 1
  required_items : List String := []
deriving DecidableEq

structure Room where
  id : String
  name : String
  description : String
  long_description : Option String := none
  exits : List (Direction × Exit) := []
  items : List String := []
  npcs : List String := []
  enemies : List String := []
  is_visited : Bool := false
  is_safe_zone : Bool := false
deriving DecidableEq

structure Player where
  name : String
  health : Int := 100
  max_health : Int := 100
  inventory : List String := []
  equipment : Equipment := {}
  current_room : String
  score : Int := 0
  moves : Int := 0
  is_alive : Bool := true
  level : Int := 1
  experience : Int := 0
  experience_to_next : Int := 100
  gold : Int := 0
  strength : Int := 10
  dexterity : Int := 10
  intelligence : Int := 10
  constitution : Int := 10
  status_effects : List (String × Int) := []
  known_recipes : List String := []
  active_quests : List String := []
  completed_quests : List String := []
deriving DecidableEq

structure CraftingRecipe where
  id : String
  name : String
  description : String
  materials : List (String × Int)
  result_item : String
  result_quantity : Int := 1
  required_level : Int := 1
  required_tools : List String := []
  crafting_time : Int := 1
deriving DecidableEq

structure GameState where
  player : Player
  rooms : List (String × Room) := []
  items : List (String × Item) := []
  npcs : List (String × NPC) := []
  enemies : List (String × Enemy) := []
  crafting_recipes : List (String × CraftingRecipe) := []
  combat_log : List String := []
deriving DecidableEq

/-- Replace the value stored under `k` (a Python `dict[k] = v` on an existing
key; insertion order is preserved). -/
def updateAssoc (l : List (String × α)) (k : String) (v : α) : List (String × α) :=
  l.map (fun p => if p.1 == k then (k, v) else p)

/-! ## Command interpreter (game/commands.py)

The interpreter's item matching is
`target_name in [item.name.lower()] + item.keywords`: Python list membership,
i.e. the lowered target is *equal* to the lowered full name or *equal* to one
of the keyword strings. -/

def itemMatchesTarget (target : String) (item : Item) : Bool :=
  target == (lowerString item.name) || item.keywords.contains target

/-- `" ".join(args).lower()`. -/
def joinArgsLower (args : List String) : String :=
  lowerString (String.intercalate " " args)

/-- `CommandParser._cmd_examine`, inventory loop: the first inventory item the
target matches (items missing from the catalog would be a KeyError in the
source; they are skipped). -/
def examineScanItems (s : GameState) (target : String) : List String → Option Item
  | [] => none
  | id :: rest =>
    match s.items.lookup id with
    | some item =>
        if itemMatchesTarget target item then some item
        else examineScanItems s target rest
    | none => examineScanItems s target rest

/-- `CommandParser._cmd_examine`, NPC loop: substring match on the name. -/
def examineScanNpcs (s : GameState) (target : String) : List String → Option NPC
  | [] => none
  | id :: rest =>
    match s.npcs.lookup id with
    | some npc =>
        if pyInStr target (lowerString npc.name) then some npc
        else examineScanNpcs s target rest
    | none => examineScanNpcs s target rest

/-- `CommandParser._cmd_examine`, enemy loop: substring match on the name. -/
def examineScanEnemies (s : GameState) (target : String) : List String → Option Enemy
  | [] => none
  | id :: rest =>
    match s.enemies.lookup id with
    | some enemy =>
        if pyInStr target (lowerString enemy.name) then some enemy
        else examineScanEnemies s target rest
    | none => examineScanEnemies s target rest

/-- `CommandParser._cmd_examine` (ASCII art omitted; the room lookup is a
direct dictionary index in the source). -/
def cmdExamine (s : GameState) (args : List String) : String :=
  if args.isEmpty then "Examine what?"
  else
    let target := joinArgsLower args
    match examineScanItems s target s.player.inventory with
    | some item => item.name ++ ": " ++ item.description
    | none =>
      let roomItems := match s.rooms.lookup s.player.current_room with
        | some room => room.items
        | none => []
      let roomNpcs := match s.rooms.lookup s.player.current_room with
        | some room => room.npcs
        | none => []
      let roomEnemies := match s.rooms.lookup s.player.current_room with
        | some room => room.enemies
        | none => []
      match examineScanItems s target roomItems with
      | some item => item.name ++ ": " ++ item.description
      | none =>
        match examineScanNpcs s target roomNpcs with
        | some npc => npc.name ++ ": " ++ npc.description
        | none =>
          match examineScanEnemies s target roomEnemies with
          | some enemy => enemy.name ++ ": " ++ enemy.description
          | none => "You don't see a '" ++ target ++ "' here."

/-- `CommandParser._cmd_take`, room-items loop: first match wins; a matched
item that is untakeable or invisible stops the scan with a refusal. -/
def takeScan (s : GameState) (roomId : String) (room : Room) (target : String) :
    List String → GameState × String
  | [] => (s, "You don't see a '" ++ target ++ "' here.")
  | id :: rest =>
    match s.items.lookup id with
    | none => takeScan s roomId room target rest
    | some item =>
      if itemMatchesTarget target item then
        if !item.is_takeable then (s, "You can't take the " ++ item.name ++ ".")
        else if !item.is_visible then (s, "You don't see a " ++ item.name ++ " here.")
        else
          let room' := { room with items := room.items.erase id }
          let player' := { s.player with
            inventory := s.player.inventory ++ [id],
            score := s.player.score + item.value }
          ({ s with rooms := updateAssoc s.rooms roomId room', player := player' },
           "You take the " ++ item.name ++ ".")
      else takeScan s roomId room target rest

/-- `CommandParser._cmd_take`. -/
def cmdTake (s : GameState) (args : List String) : GameState × String :=
  if args.isEmpty then (s, "Take what?")
  else
    let target := joinArgsLower args
    match s.rooms.lookup s.player.current_room with
    | none => (s, "You don't see a '" ++ target ++ "' here.")
    | some room => takeScan s s.player.current_room room target room.items

/-- `CommandParser._cmd_drop`, inventory loop. -/
def dropScan (s : GameState) (roomId : String) (room : Room) (target : String) :
    List String → GameState × String
  | [] => (s, "You don't have a '" ++ target ++ "'.")
  | id :: rest =>
    match s.items.lookup id with
    | none => dropScan s roomId room target rest
    | some item =>
      if itemMatchesTarget target item then
        let room' := { room with items := room.items ++ [id] }
        let player' := { s.player with inventory := s.player.inventory.erase id }
        ({ s with rooms := updateAssoc s.rooms roomId room', player := player' },
         "You drop the " ++ item.name ++ ".")
      else dropScan s roomId room target rest

/-- `CommandParser._cmd_drop`. -/
def cmdDrop (s : GameState) (args : List String) : GameState × String :=
  if args.isEmpty then (s, "Drop what?")
  else
    let target := joinArgsLower args
    match s.rooms.lookup s.player.current_room with
    | none => (s, "You don't have a '" ++ target ++ "'.")
    | some room => dropScan s s.player.current_room room target s.player.inventory

/-- `CommandParser._cmd_use`, inventory loop: a matched item only produces its
`use_description` (or a fallback message); nothing is mutated. -/
def useScan (s : GameState) (target : String) : List String → String
  | [] => "You don't have a '" ++ target ++ "'."
  | id :: rest =>
    match s.items.lookup id with
    | none => useScan s target rest
    | some item =>
      if itemMatchesTarget target item then
        match item.use_description with
        | some d => d
        | none => "You use the " ++ item.name ++ ", but nothing happens."
      else useScan s target rest

/-- `CommandParser._cmd_use`: the returned state is the input state — the
source method contains no assignment to the game state. -/
def cmdUse (s : GameState) (args : List String) : GameState × String :=
  if args.isEmpty then (s, "Use what?")
  else (s, useScan s (joinArgsLower args) s.player.inventory)

/-- `CommandParser._cmd_equip`, inventory search loop: the first inventory
item (with its id) the target matches. -/
def equipScan (s : GameState) (target : String) : List String → Option (String × Item)
  | [] => none
  | id :: rest =>
    match s.items.lookup id with
    | none => equipScan s target rest
    | some item =>
      if itemMatchesTarget target item then some (id, item)
      else equipScan s target rest

/-- The slot update of `_cmd_equip`: append the currently equipped id back to
the inventory (skipped for a falsy — empty-string — id, matching the
source's `if current_item_id:` truthiness test), set the slot to the new id,
then remove the new id from the inventory. -/
def equipInto (s : GameState) (itemId : String) (isWeapon : Bool) : GameState :=
  let currentOpt := if isWeapon then s.player.equipment.weapon
    else s.player.equipment.armor
  let inv1 := match currentOpt with
    | some cur =>
      if cur == "" then s.player.inventory else s.player.inventory ++ [cur]
    | none => s.player.inventory
  let equipment' := if isWeapon then { s.player.equipment with weapon := some itemId }
    else { s.player.equipment with armor := some itemId }
  { s with player := { s.player with
      equipment := equipment', inventory := inv1.erase itemId } }

/-- `CommandParser._cmd_equip`.  The source keeps the found id in `item_id`
and then tests `if not item_id:` — Python truthiness — so a matched item
stored under the empty-string id is reported as not held. -/
def cmdEquip (s : GameState) (args : List String) : GameState × String :=
  if args.isEmpty then (s, "Equip what?")
  else
    let target := joinArgsLower args
    match equipScan s target s.player.inventory with
    | none => (s, "You don't have a " ++ target ++ ".")
    | some (itemId, item) =>
      if itemId == "" then (s, "You don't have a " ++ target ++ ".")
      else if item.item_type == ItemType.weapon then
        (equipInto s itemId true, "You equip " ++ item.name ++ ".")
      else if item.item_type == ItemType.armor then
        (equipInto s itemId false, "You equip " ++ item.name ++ ".")
      else (s, "You can't equip " ++ item.name ++ ".")

/-- One tag per handler referenced by `CommandParser._setup_commands`, plus a
tag for `CombatSystem.use_item`, which no table entry references. -/
inductive Cmd
  | help | look | examine | take | drop | inventory | use | talk
  | status | score | save | load
  | attack | flee | combatStatus
  | equip | unequip | equipment
  | craft | recipes | recipeInfo | learnRecipe
  | quest | quests | acceptQuest | questProgress
  | stats | gold | level | shop | buy | sell
  | history | move
  | combatUseItem
deriving DecidableEq, BEq

/-- The verb table built by `CommandParser._setup_commands`, in source order;
every movement direction is also registered, mapped to `_cmd_move`. -/
def commandsTable : List (String × Cmd) :=
  [("help", .help), ("look", .look), ("l", .look),
   ("examine", .examine), ("take", .take), ("drop", .drop),
   ("inventory", .inventory), ("use", .use), ("talk", .talk),
   ("status", .status), ("score", .score), ("save", .save), ("load", .load),
   ("attack", .attack), ("flee", .flee), ("combat", .combatStatus),
   ("equip", .equip), ("unequip", .unequip), ("equipment", .equipment),
   ("craft", .craft), ("recipes", .recipes), ("recipe", .recipeInfo),
   ("learn", .learnRecipe),
   ("quest", .quest), ("quests", .quests), ("accept", .acceptQuest),
   ("progress", .questProgress),
   ("stats", .stats), ("gold", .gold), ("level", .level),
   ("shop", .shop), ("buy", .buy), ("sell", .sell),
   ("history", .history)]
  ++ allDirections.map (fun d => (d.value, Cmd.move))

/-! ## Movement (`CommandParser._cmd_move`) -/

/-- Does some inventory item's lowered name contain `req` (the required-item
gate's inner `any`)? -/
def inventoryHasFragment (s : GameState) (req : String) : Bool :=
  s.player.inventory.any (fun id =>
    match s.items.lookup id with
    | some item => pyInStr req (lowerString item.name)
    | none => false)

/-- The success output of `_cmd_move` (decoration art omitted): the moving
line, the chosen description, then the exits/items/NPCs/enemies lines. -/
def moveOutput (direction : String) (s : GameState) (room : Room) (desc : String) :
    String :=
  let exitDirs := (room.exits.map Prod.snd).filterMap
    (fun e => if e.is_open then some e.direction.value else none)
  let itemNames := room.items.filterMap (fun id =>
    match s.items.lookup id with
    | some item => if item.is_visible then some item.name else none
    | none => none)
  let npcNames := room.npcs.filterMap (fun id =>
    match s.npcs.lookup id with
    | some npc => if npc.is_alive then some npc.name else none
    | none => none)
  let enemyNames := room.enemies.filterMap (fun id =>
    match s.enemies.lookup id with
    | some enemy => if enemy.is_alive then some enemy.name else none
    | none => none)
  String.intercalate "\n"
    (["\nMoving " ++ direction ++ "...", "", desc, ""]
     ++ (if exitDirs.isEmpty then []
         else ["Exits: " ++ String.intercalate ", " exitDirs])
     ++ (if itemNames.isEmpty then []
         else ["You see: " ++ String.intercalate ", " itemNames])
     ++ (if npcNames.isEmpty then []
         else ["Present: " ++ String.intercalate ", " npcNames])
     ++ (if enemyNames.isEmpty then []
         else ["Enemies: " ++ String.intercalate ", " enemyNames])
     ++ [""])

/-- `CommandParser._cmd_move`: gates in source order — exit existence,
`is_open`, `is_locked` (passable only with the configured `required_key` in
the inventory), level requirement, required item fragments; then the room
switch, the move-counter increment, and the first-visit description logic. -/
def cmdMove (s : GameState) (direction : String) : GameState × String :=
  match parseDirection direction with
  | none => (s, "'" ++ direction ++ "' is not a valid direction.")
  | some dir =>
    match s.rooms.lookup s.player.current_room with
    | none => (s, "You can't go " ++ direction ++ " from here.")
    | some room =>
      match room.exits.lookup dir with
      | none => (s, "You can't go " ++ direction ++ " from here.")
      | some e =>
        if !e.is_open then (s, "The exit to the " ++ direction ++ " is closed.")
        else if e.is_locked &&
            (match e.required_key with
             | some k => !(s.player.inventory.contains k)
             | none => true) then
          (match e.required_key with
           | some _ => (s, "The exit to the " ++ direction ++ " is locked. You need a key.")
           | none => (s, "The exit to the " ++ direction ++ " is locked."))
        else if s.player.level < e.required_level then
          (s, "You need to be level " ++ toString e.required_level ++ " to go " ++ direction ++ ".")
        else
          match e.required_items.find? (fun req => !inventoryHasFragment s req) with
          | some req => (s, "You need " ++ req ++ " to go " ++ direction ++ ".")
          | none =>
            let player' := { s.player with
              current_room := e.destination, moves := s.player.moves + 1 }
            let s' := { s with player := player' }
            match s'.rooms.lookup e.destination with
            | none => (s', "")
            | some newRoom =>
              if newRoom.is_visited then
                (s', moveOutput direction s' newRoom newRoom.description)
              else
                let newRoom' := { newRoom with is_visited := true }
                ({ s' with rooms := updateAssoc s'.rooms e.destination newRoom' },
                 moveOutput direction s' newRoom
                   (newRoom.long_description.getD newRoom.description))

/-! ## Combat (game/combat.py)

Every `random.*` draw is an explicit parameter: `r` for the `randint(-2, 2)`
damage offset, `surprise` for the surprise-attack roll, `specialRoll` for the
30% special-ability roll, `abilityIdx` for `random.choice`. -/

/-- `CombatSystem._calculate_damage`. -/
def calculateDamage (attack_damage defense r : Int) : Int :=
  let damage := max 1 (attack_damage - defense)
  max 1 (damage + r)

/-- `CombatSystem._get_player_armor`: the armor slot, then the helmet, boots
and gloves slots (missing catalog entries contribute nothing, as with
`dict.get`). -/
def getPlayerArmor (s : GameState) : Int :=
  let fromSlot : Option String → Int := fun slot =>
    match slot with
    | some id =>
      match s.items.lookup id with
      | some item => item.armor_value
      | none => 0
    | none => 0
  let total := 0 + fromSlot s.player.equipment.armor
  let total := total + fromSlot s.player.equipment.helmet
  let total := total + fromSlot s.player.equipment.boots
  total + fromSlot s.player.equipment.gloves

/-- `CombatSystem._get_weapon_damage`. -/
def getWeaponDamage (s : GameState) : Int :=
  match s.player.equipment.weapon with
  | some id =>
    match s.items.lookup id with
    | some item => item.damage
    | none => 0
  | none => 0

/-- `CombatSystem._level_up`.  Python's `int(t * 1.5)` truncates toward zero;
for the integer thresholds involved it equals `Int.tdiv (3 * t) 2`. -/
def levelUp (s : GameState) : GameState :=
  let p := s.player
  let p' := { p with
    level := p.level + 1,
    experience := p.experience - p.experience_to_next,
    experience_to_next := Int.tdiv (3 * p.experience_to_next) 2,
    max_health := p.max_health + 10,
    health := p.max_health + 10,
    strength := p.strength + 1,
    dexterity := p.dexterity + 1,
    intelligence := p.intelligence + 1,
    constitution := p.constitution + 1 }
  { s with
    player := p',
    combat_log := s.combat_log ++
      ["Level up! You are now level " ++ toString (p.level + 1) ++ "!",
       "Your stats have increased!"] }

/-- A Python `dict[k] = v` that also inserts when the key is new
(`Player.status_effects`). -/
def setAssoc (l : List (String × Int)) (k : String) (v : Int) : List (String × Int) :=
  if (l.lookup k).isSome then updateAssoc l k v else l ++ [(k, v)]

/-- `CombatSystem._use_enemy_special_ability`; `abilityIdx` stands for the
`random.choice` draw.  `enemyKey` is the key the enemy object sits under in
`state.enemies` (the source mutates the aliased object in place). -/
def useEnemySpecialAbility (s : GameState) (enemyKey : String) (enemy : Enemy)
    (abilityIdx : Nat) : GameState × Option String :=
  match enemy.special_abilities with
  | [] => (s, none)
  | a :: rest =>
    let abilities := a :: rest
    let ability := abilities.getD (abilityIdx % abilities.length) a
    if ability == "poison" then
      ({ s with player := { s.player with
          status_effects := setAssoc s.player.status_effects "poisoned" 3 } },
       some (enemy.name ++ " poisons you!"))
    else if ability == "stun" then
      ({ s with player := { s.player with
          status_effects := setAssoc s.player.status_effects "stunned" 1 } },
       some (enemy.name ++ " stuns you!"))
    else if ability == "heal" then
      let healAmount := Int.fdiv enemy.max_health 4
      let enemy' := { enemy with health := min enemy.max_health (enemy.health + healAmount) }
      ({ s with enemies := updateAssoc s.enemies enemyKey enemy' },
       some (enemy.name ++ " heals themselves for " ++ toString healAmount ++ " health!"))
    else (s, none)

/-- `CombatSystem._enemy_turn`. -/
def enemyTurn (s : GameState) (enemyKey : String) (enemy : Enemy) (r : Int)
    (specialRoll : Bool) (abilityIdx : Nat) : GameState × String :=
  let enemyDamage := calculateDamage enemy.damage (getPlayerArmor s) r
  let s := { s with
    player := { s.player with health := s.player.health - enemyDamage },
    combat_log := s.combat_log ++
      [enemy.name ++ " attacks you for " ++ toString enemyDamage ++ " damage!"] }
  if s.player.health ≤ 0 then
    let s := { s with
      player := { s.player with health := 0, is_alive := false },
      combat_log := s.combat_log ++ ["You have been defeated!"] }
    (s, String.intercalate "\n" s.combat_log)
  else
    if !enemy.special_abilities.isEmpty && specialRoll then
      match useEnemySpecialAbility s enemyKey enemy abilityIdx with
      | (s', some msg) =>
        let s' := { s' with combat_log := s'.combat_log ++ [msg] }
        (s', String.intercalate "\n" s'.combat_log)
      | (s', none) => (s', String.intercalate "\n" s'.combat_log)
    else (s, String.intercalate "\n" s.combat_log)

/-- The enemy-selection loops at the top of `CombatSystem.attack`: first an
alive enemy whose lowered name contains the lowered target, else the first
alive enemy in room order.  Returns the dictionary key together with the
enemy. -/
def selectAttackTarget (s : GameState) (room : Room) (targetName : String) :
    Option (String × Enemy) :=
  let named := room.enemies.findSome? (fun id =>
    match s.enemies.lookup id with
    | some e =>
      if e.is_alive && pyInStr (lowerString targetName) (lowerString e.name) then some (id, e)
      else none
    | none => none)
  match named with
  | some p => some p
  | none => room.enemies.findSome? (fun id =>
      match s.enemies.lookup id with
      | some e => if e.is_alive then some (id, e) else none
      | none => none)

/-- `CombatSystem.attack` (the kill branch and the counter-attack branch).
`r1` is the player-damage offset, `r2`/`specialRoll`/`abilityIdx` drive the
counter-attack. -/
def attack (s : GameState) (targetName : String) (r1 r2 : Int)
    (specialRoll : Bool) (abilityIdx : Nat) : GameState × String :=
  match s.rooms.lookup s.player.current_room with
  | none => (s, "There are no enemies to attack.")
  | some room =>
    match selectAttackTarget s room targetName with
    | none => (s, "There are no enemies to attack.")
    | some (enemyKey, enemy) =>
      let weaponDamage := getWeaponDamage s
      let baseDamage := max 1 (Int.fdiv s.player.strength 3)
      let totalDamage := weaponDamage + baseDamage
      let actualDamage := calculateDamage totalDamage enemy.armor r1
      let enemy' := { enemy with health := enemy.health - actualDamage }
      let weaponName := match s.player.equipment.weapon with
        | some id =>
          match s.items.lookup id with
          | some item => item.name
          | none => "your fists"
        | none => "your fists"
      let s := { s with
        enemies := updateAssoc s.enemies enemyKey enemy',
        combat_log := s.combat_log ++
          ["You attack " ++ enemy.name ++ " with " ++ weaponName ++ " for "
            ++ toString actualDamage ++ " damage!"] }
      if enemy'.health ≤ 0 then
        let enemyDead := { enemy' with health := 0, is_alive := false }
        let s := { s with
          enemies := updateAssoc s.enemies enemyKey enemyDead,
          player := { s.player with
            experience := s.player.experience + enemy.experience_reward,
            gold := s.player.gold + enemy.gold_reward },
          combat_log := s.combat_log ++
            ["You have defeated " ++ enemy.name ++ "!",
             "You gain " ++ toString enemy.experience_reward ++ " experience and "
               ++ toString enemy.gold_reward ++ " gold!"] }
        let s := if s.player.experience ≥ s.player.experience_to_next
          then levelUp s else s
        let s := if !enemy.inventory.isEmpty then
            { s with
              rooms := updateAssoc s.rooms s.player.current_room
                { room with items := room.items ++ enemy.inventory },
              combat_log := s.combat_log ++ [enemy.name ++ " drops some items!"] }
          else s
        (s, String.intercalate "\n" s.combat_log)
      else
        enemyTurn s enemyKey enemy' r2 specialRoll abilityIdx

/-- `CombatSystem.start_combat`; `surprise` is the outcome of the
`_check_surprise_attack` roll.  The surprise branch subtracts the damage from
the player's health with no clamping and no death check. -/
def startCombat (s : GameState) (enemyId : String) (surprise : Bool) (r : Int) :
    GameState × String :=
  match s.enemies.lookup enemyId with
  | none => (s, "Enemy not found.")
  | some enemy =>
    if !enemy.is_alive then (s, enemy.name ++ " is already defeated.")
    else if s.player.current_room != enemy.current_room then
      (s, enemy.name ++ " is not in this room.")
    else
      match s.rooms.lookup s.player.current_room with
      | none => (s, "")
      | some room =>
        if room.is_safe_zone then (s, "Combat is not allowed in this area.")
        else
          let s := { s with combat_log := ["Combat begins! You face " ++ enemy.name ++ "!"] }
          if surprise then
            let damage := calculateDamage enemy.damage (getPlayerArmor s) r
            let s := { s with
              player := { s.player with health := s.player.health - damage },
              combat_log := s.combat_log ++
                [enemy.name ++ " catches you by surprise!",
                 "You take " ++ toString damage ++ " damage!"] }
            (s, String.intercalate "\n" s.combat_log)
          else (s, String.intercalate "\n" s.combat_log)

/-! ## Crafting (game/crafting.py) -/

/-- `CraftingSystem._player_has_item`: substring match on the lowered name. -/
def playerHasItem (s : GameState) (itemName : String) : Bool :=
  s.player.inventory.any (fun id =>
    match s.items.lookup id with
    | some item => pyInStr (lowerString itemName) (lowerString item.name)
    | none => false)

/-- `CraftingSystem._player_has_material`: despite the `quantity` parameter it
returns the raw count of inventory items whose lowered name contains the
lowered material fragment. -/
def playerHasMaterial (s : GameState) (materialName : String) (quantity : Int) : Int :=
  ((s.player.inventory.countP (fun id =>
    match s.items.lookup id with
    | some item => pyInStr (lowerString materialName) (lowerString item.name)
    | none => false) : Nat) : Int)

/-- `CraftingSystem._can_craft_recipe`: the material check is
`if not self._player_has_material(material, quantity)` — Python truthiness on
the returned count, i.e. it only fails when the count is zero. -/
def canCraftRecipe (s : GameState) (recipe : CraftingRecipe) : Bool :=
  if s.player.level < recipe.required_level then false
  else if !(s.player.known_recipes.contains recipe.id) then false
  else if recipe.required_tools.any (fun tool => !playerHasItem s tool) then false
  else if recipe.materials.any (fun m => playerHasMaterial s m.1 m.2 == 0) then false
  else true

/-- The collection loop of `CraftingSystem._consume_material`: ids of the
first matching items, stopping once `quantity` have been collected. -/
def collectToRemove (s : GameState) (materialName : String) (quantity : Int) :
    List String → Int → List String
  | [], _ => []
  | id :: rest, consumed =>
    if consumed ≥ quantity then []
    else
      match s.items.lookup id with
      | some item =>
        if pyInStr (lowerString materialName) (lowerString item.name) then
          id :: collectToRemove s materialName quantity rest (consumed + 1)
        else collectToRemove s materialName quantity rest consumed
      | none => collectToRemove s materialName quantity rest consumed

/-- `CraftingSystem._consume_material`. -/
def consumeMaterial (s : GameState) (materialName : String) (quantity : Int) :
    GameState :=
  let toRemove := collectToRemove s materialName quantity s.player.inventory 0
  { s with player := { s.player with
      inventory := toRemove.foldl List.erase s.player.inventory } }

/-- `CraftingSystem._get_item_type_from_recipe`. -/
def getItemTypeFromRecipe (recipe : CraftingRecipe) : ItemType :=
  let name := (lowerString recipe.name)
  if pyInStr "potion" name then ItemType.potion
  else if pyInStr "sword" name || pyInStr "weapon" name then ItemType.weapon
  else if pyInStr "armor" name then ItemType.armor
  else if pyInStr "scroll" name then ItemType.scroll
  else if pyInStr "key" name || pyInStr "lockpick" name then ItemType.tool
  else ItemType.misc

/-- `CraftingSystem._calculate_item_value`. -/
def calculateItemValue (recipe : CraftingRecipe) : Int :=
  let base := recipe.materials.foldl (fun acc m => acc + m.2 * 5) 10
  base + recipe.required_level * 10 + recipe.crafting_time * 2

/-- `CraftingSystem._create_crafted_item`: reuse the catalog entry under the
recipe's result id if it exists, else create one (with the special-property
fix-ups) and insert it under that id. -/
def createCraftedItem (s : GameState) (recipe : CraftingRecipe) : GameState × Item :=
  match s.items.lookup recipe.result_item with
  | some item => (s, item)
  | none =>
    let item : Item := {
      name := recipe.name,
      description := recipe.description,
      item_type := getItemTypeFromRecipe recipe,
      value := calculateItemValue recipe,
      keywords := [underscoreSpaces (lowerString recipe.name)] }
    let name := (lowerString recipe.name)
    let item :=
      if pyInStr "potion" name then
        { item with item_type := ItemType.potion, healing_value := 25 }
      else if pyInStr "sword" name then
        { item with item_type := ItemType.weapon, damage := 15 }
      else if pyInStr "armor" name then
        { item with item_type := ItemType.armor, armor_value := 10 }
      else if pyInStr "torch" name then
        { item with
          item_type := ItemType.tool,
          use_description := some "The torch provides light in dark areas." }
      else item
    ({ s with items := s.items ++ [(recipe.result_item, item)] }, item)

/-- The recipe-search loop of `CraftingSystem.craft_item`: first recipe, in
table order, whose lowered name contains the lowered argument. -/
def findRecipeByName (s : GameState) (recipeName : String) : Option CraftingRecipe :=
  (s.crafting_recipes.map Prod.snd).find?
    (fun r => pyInStr (lowerString recipeName) (lowerString r.name))

/-- The outcome of `CraftingSystem.craft_item`: either a returned message, or
the uncaught `AttributeError` the success path raises; both carry the game
state as it stands at that point (mutations to the shared state persist
across the raise). -/
inductive CraftResult where
  | ok (s : GameState) (msg : String)
  | attrError (s : GameState)
deriving DecidableEq

def CraftResult.isAttrError : CraftResult → Bool
  | .attrError _ => true
  | .ok _ _ => false

def CraftResult.state : CraftResult → GameState
  | .ok s _ => s
  | .attrError s => s

/-- `CraftingSystem.craft_item`.  After consuming the materials and creating
(or finding) the result item, the source executes
`self.state.player.inventory.append(crafted_item.id)`; the `Item` model has
no `id` field and nothing in the repository ever sets one, so this attribute
access raises `AttributeError` — the result is never appended and no success
message is ever returned.  The raise is modelled as `CraftResult.attrError`
carrying the state at the point of the crash (materials already consumed,
result item already created). -/
def craftItem (s : GameState) (recipeName : String) : CraftResult :=
  match findRecipeByName s recipeName with
  | none => .ok s ("Recipe '" ++ recipeName ++ "' not found.")
  | some recipe =>
    if !canCraftRecipe s recipe then
      if !(s.player.known_recipes.contains recipe.id) then
        .ok s ("You don't know how to craft " ++ recipe.name ++ ".")
      else if s.player.level < recipe.required_level then
        .ok s ("You need level " ++ toString recipe.required_level ++ " to craft "
          ++ recipe.name ++ ".")
      else
        .ok s ("You don't have the required materials to craft " ++ recipe.name ++ ".")
    else
      let s := recipe.materials.foldl (fun st m => consumeMaterial st m.1 m.2) s
      let (s, _) := createCraftedItem s recipe
      .attrError s

/-- `CraftingSystem.learn_recipe`.  `Player.known_recipes` is a Python set;
it is modelled as a duplicate-free list and `set.add` as an append. -/
def learnRecipe (s : GameState) (recipeId : String) : GameState × String :=
  match s.crafting_recipes.lookup recipeId with
  | none => (s, "Recipe '" ++ recipeId ++ "' not found.")
  | some recipe =>
    if s.player.known_recipes.contains recipeId then
      (s, "You already know the " ++ recipe.name ++ " recipe.")
    else
      ({ s with player := { s.player with
          known_recipes := s.player.known_recipes ++ [recipeId] } },
       "You learn how to craft " ++ recipe.name ++ "!")

/-! ## Quests (game/quests.py) -/

/-- `QuestSystem._check_requirement`: the literal key `"goblin_defeated"` is a
world predicate over goblin-type enemies, the literal key `"cave_explored"`
reads the fixed room `deep_cavern`, and every other key is an inventory
substring count compared against `count`. -/
def checkRequirement (s : GameState) (requirement : String) (count : Int) : Bool :=
  if requirement == "goblin_defeated" then
    (s.enemies.map Prod.snd).any (fun e => e.enemy_type == "goblin" && !e.is_alive)
  else if requirement == "cave_explored" then
    match s.rooms.lookup "deep_cavern" with
    | some room => room.is_visited
    | none => false
  else
    let playerCount : Int := ((s.player.inventory.countP (fun id =>
      match s.items.lookup id with
      | some item => pyInStr (lowerString requirement) (lowerString item.name)
      | none => false) : Nat) : Int)
    decide (playerCount ≥ count)

/-! ## Specification-side definitions

These are written from the words of the specification and of the claims, to
be compared with the definitions embedded from the source. -/

/-- The matching predicate as the claim words it: the lower-cased target text
is a case-insensitive substring of the candidate's full name or of one of its
keyword strings. -/
def claimItemMatches (target : String) (item : Item) : Bool :=
  pyInStr target (lowerString item.name) || item.keywords.any (fun kw => pyInStr target (lowerString kw))

/-- The items found under a list of ids, in order. -/
def itemsOf (s : GameState) (ids : List String) : List Item :=
  ids.filterMap (fun id => s.items.lookup id)

/-- `examine` as the amended claim words it: the first candidate of the
inventory pool, then the room-item pool (exact name/keyword match), then the
room-NPC pool, then the room-enemy pool (substring name match). -/
def examineSpec (s : GameState) (args : List String) : String :=
  if args.isEmpty then "Examine what?"
  else
    let target := joinArgsLower args
    let room? := s.rooms.lookup s.player.current_room
    let roomItems := (room?.map Room.items).getD []
    let roomNpcs := (room?.map Room.npcs).getD []
    let roomEnemies := (room?.map Room.enemies).getD []
    match (itemsOf s s.player.inventory).find? (itemMatchesTarget target) with
    | some item => item.name ++ ": " ++ item.description
    | none =>
      match (itemsOf s roomItems).find? (itemMatchesTarget target) with
      | some item => item.name ++ ": " ++ item.description
      | none =>
        match (roomNpcs.filterMap (fun id => s.npcs.lookup id)).find?
            (fun npc => pyInStr target (lowerString npc.name)) with
        | some npc => npc.name ++ ": " ++ npc.description
        | none =>
          match (roomEnemies.filterMap (fun id => s.enemies.lookup id)).find?
              (fun enemy => pyInStr target (lowerString enemy.name)) with
          | some enemy => enemy.name ++ ": " ++ enemy.description
          | none => "You don't see a '" ++ target ++ "' here."

/-- `take` as the amended claim words it: the first room item (with its id)
the exact name/keyword predicate matches; the matched item is refused when
untakeable or invisible, otherwise moved to the inventory with the score
increment. -/
def takeSpec (s : GameState) (args : List String) : GameState × String :=
  if args.isEmpty then (s, "Take what?")
  else
    let target := joinArgsLower args
    match s.rooms.lookup s.player.current_room with
    | none => (s, "You don't see a '" ++ target ++ "' here.")
    | some room =>
      match (room.items.filterMap (fun id =>
          (s.items.lookup id).map (fun item => (id, item)))).find?
          (fun p => itemMatchesTarget target p.2) with
      | none => (s, "You don't see a '" ++ target ++ "' here.")
      | some (id, item) =>
        if !item.is_takeable then (s, "You can't take the " ++ item.name ++ ".")
        else if !item.is_visible then (s, "You don't see a " ++ item.name ++ " here.")
        else
          ({ s with
              rooms := updateAssoc s.rooms s.player.current_room
                { room with items := room.items.erase id },
              player := { s.player with
                inventory := s.player.inventory ++ [id],
                score := s.player.score + item.value } },
           "You take the " ++ item.name ++ ".")

/-- `drop` as the amended claim words it: the first inventory item (with its
id) the exact name/keyword predicate matches is moved to the room. -/
def dropSpec (s : GameState) (args : List String) : GameState × String :=
  if args.isEmpty then (s, "Drop what?")
  else
    let target := joinArgsLower args
    match s.rooms.lookup s.player.current_room with
    | none => (s, "You don't have a '" ++ target ++ "'.")
    | some room =>
      match (s.player.inventory.filterMap (fun id =>
          (s.items.lookup id).map (fun item => (id, item)))).find?
          (fun p => itemMatchesTarget target p.2) with
      | none => (s, "You don't have a '" ++ target ++ "'.")
      | some (id, item) =>
        ({ s with
            rooms := updateAssoc s.rooms s.player.current_room
              { room with items := room.items ++ [id] },
            player := { s.player with
              inventory := s.player.inventory.erase id } },
         "You drop the " ++ item.name ++ ".")

/-- `use` as the amended claim words it: the first matching inventory item's
use description (or the fallback message), with the state untouched. -/
def useSpec (s : GameState) (args : List String) : GameState × String :=
  if args.isEmpty then (s, "Use what?")
  else
    let target := joinArgsLower args
    match (itemsOf s s.player.inventory).find? (itemMatchesTarget target) with
    | none => (s, "You don't have a '" ++ target ++ "'.")
    | some item =>
      match item.use_description with
      | some d => (s, d)
      | none => (s, "You use the " ++ item.name ++ ", but nothing happens.")

/-- `equip` as the amended claim words it: the first matching inventory item
(with its id) is selected, then the falsy-id test, the weapon/armor slot
dispatch and the slot swap proceed on that selection. -/
def equipSpec (s : GameState) (args : List String) : GameState × String :=
  if args.isEmpty then (s, "Equip what?")
  else
    let target := joinArgsLower args
    match (s.player.inventory.filterMap (fun id =>
        (s.items.lookup id).map (fun item => (id, item)))).find?
        (fun p => itemMatchesTarget target p.2) with
    | none => (s, "You don't have a " ++ target ++ ".")
    | some (itemId, item) =>
      if itemId == "" then (s, "You don't have a " ++ target ++ ".")
      else if item.item_type == ItemType.weapon then
        (equipInto s itemId true, "You equip " ++ item.name ++ ".")
      else if item.item_type == ItemType.armor then
        (equipInto s itemId false, "You equip " ++ item.name ++ ".")
      else (s, "You can't equip " ++ item.name ++ ".")

/-- The armor value contributed by one equipment slot (zero when the slot is
empty or its id is missing from the catalog). -/
def slotArmorValue (s : GameState) (slot : Option String) : Int :=
  match slot with
  | some id =>
    match s.items.lookup id with
    | some item => item.armor_value
    | none => 0
  | none => 0

/-- The defense sum as the amended claim words it: the four slots armor,
helmet, boots, gloves. -/
def fourSlotArmorSum (s : GameState) : Int :=
  ([s.player.equipment.armor, s.player.equipment.helmet,
    s.player.equipment.boots, s.player.equipment.gloves].map
      (slotArmorValue s)).sum

/-- The defense sum as the original claim words it: all six non-weapon slots,
including ring and amulet. -/
def claimSixSlotArmorSum (s : GameState) : Int :=
  ([s.player.equipment.armor, s.player.equipment.helmet,
    s.player.equipment.boots, s.player.equipment.gloves,
    s.player.equipment.ring, s.player.equipment.amulet].map
      (slotArmorValue s)).sum

/-- The string values of the `EnemyType` enum, in declaration order. -/
def enemyTypeValues : List String :=
  ["goblin", "orc", "troll", "dragon", "skeleton", "zombie", "bandit", "wolf"]

/-- Requirement checking as the original claim words it: every
`<enemy-type>_defeated` key is a world predicate over that enemy type. -/
def claimCheckRequirement (s : GameState) (requirement : String) (count : Int) : Bool :=
  match enemyTypeValues.find? (fun t => requirement == t ++ "_defeated") with
  | some t => (s.enemies.map Prod.snd).any (fun e => e.enemy_type == t && !e.is_alive)
  | none =>
    if requirement == "cave_explored" then
      match s.rooms.lookup "deep_cavern" with
      | some room => room.is_visited
      | none => false
    else
      let playerCount : Int := ((s.player.inventory.countP (fun id =>
        match s.items.lookup id with
        | some item => pyInStr (lowerString requirement) (lowerString item.name)
        | none => false) : Nat) : Int)
      decide (playerCount ≥ count)

/-- Requirement checking as the amended claim words it: only the literal key
`goblin_defeated` is a world predicate (existence of a dead goblin-type
enemy), `cave_explored` reads `deep_cavern`, and everything else counts
matching inventory items. -/
def checkRequirementSpec (s : GameState) (requirement : String) (count : Int) : Bool :=
  if requirement == "goblin_defeated" then
    decide (∃ e ∈ s.enemies.map Prod.snd, e.enemy_type = "goblin" ∧ e.is_alive = false)
  else if requirement == "cave_explored" then
    ((s.rooms.lookup "deep_cavern").map Room.is_visited).getD false
  else
    decide (count ≤ ((s.player.inventory.filter (fun id =>
      match s.items.lookup id with
      | some item => pyInStr (lowerString requirement) (lowerString item.name)
      | none => false)).length : Int))

/-! ## Concrete worlds used by witnesses and counterexamples -/

def c1Sword : Item :=
  { name := "Iron Sword", description := "A sturdy iron sword.",
    item_type := .weapon, damage := 10 }

def c1State : GameState :=
  { player := { name := "Adventurer", current_room := "hall",
                inventory := ["iron_sword"] },
    rooms := [("hall", { id := "hall", name := "Hall", description := "A hall." })],
    items := [("iron_sword", c1Sword)] }

def c2Recipe : CraftingRecipe :=
  { id := "health_potion", name := "Health Potion",
    description := "A potion that restores health",
    materials := [("herb", 2), ("water", 1)],
    result_item := "health_potion", required_level := 1, crafting_time := 2 }

def c2State : GameState :=
  { player := { name := "Adventurer", current_room := "hall",
                inventory := ["herb1", "water1"],
                known_recipes := ["health_potion"] },
    items := [("herb1", { name := "Herb", description := "A medicinal herb.",
                          item_type := .material }),
              ("water1", { name := "Water", description := "A flask of water.",
                           item_type := .material })],
    crafting_recipes := [("health_potion", c2Recipe)] }

def c3State : GameState :=
  { player := { name := "Adventurer", current_room := "hall",
                equipment := { ring := some "ring1" } },
    items := [("ring1", { name := "Magic Ring", description := "A ring.",
                          item_type := .treasure, armor_value := 5 })] }

def c4RoomA : Room :=
  { id := "r1", name := "Room A", description := "Room A.",
    exits := [(Direction.north, { direction := .north, destination := "r2" })],
    is_visited := true }

def c4RoomB : Room :=
  { id := "r2", name := "Room B", description := "Room B, briefly.",
    long_description := some "Room B, in full detail." }

def c4State : GameState :=
  { player := { name := "Adventurer", current_room := "r1" },
    rooms := [("r1", c4RoomA), ("r2", c4RoomB)] }

def c5Goblin : Enemy :=
  { id := "goblin", name := "Goblin", enemy_type := "goblin",
    description := "A nasty goblin.", health := 1, max_health := 10,
    damage := 2, armor := 0, experience_reward := 200, gold_reward := 5,
    current_room := "hall" }

def c5Room : Room :=
  { id := "hall", name := "Hall", description := "A hall.",
    enemies := ["goblin"] }

def c5State : GameState :=
  { player := { name := "Adventurer", current_room := "hall",
                experience := 95, experience_to_next := 100 },
    rooms := [("hall", c5Room)],
    enemies := [("goblin", c5Goblin)] }

def c6State : GameState :=
  { player := { name := "Adventurer", current_room := "hall" },
    enemies := [("orc1", { id := "orc1", name := "Orc Warrior",
                           enemy_type := "orc", description := "An orc.",
                           health := 0, max_health := 20, damage := 5,
                           armor := 1, experience_reward := 30,
                           gold_reward := 10, current_room := "hall",
                           is_alive := false })] }

def c7State : GameState :=
  { player := { name := "Adventurer", current_room := "cave",
                health := 1, max_health := 100 },
    rooms := [("cave", { id := "cave", name := "Cave", description := "A cave.",
                         enemies := ["g1"] })],
    enemies := [("g1", { id := "g1", name := "Goblin", enemy_type := "goblin",
                         description := "A goblin.", health := 10,
                         max_health := 10, damage := 3, armor := 0,
                         experience_reward := 10, gold_reward := 5,
                         current_room := "cave" })] }

def c3wEnemy : Enemy :=
  { id := "g1", name := "Goblin", enemy_type := "goblin",
    description := "A goblin.", health := 10, max_health := 10,
    damage := 4, armor := 2, experience_reward := 10, gold_reward := 5,
    current_room := "hall" }

def c3wRoom : Room :=
  { id := "hall", name := "Hall", description := "A hall.",
    enemies := ["g1"] }

def c3wState : GameState :=
  { player := { name := "Adventurer", current_room := "hall" },
    rooms := [("hall", c3wRoom)],
    enemies := [("g1", c3wEnemy)] }

def c9Recipe : CraftingRecipe :=
  { id := "torch", name := "Torch", description := "A wooden torch for light",
    materials := [("wood", 1), ("cloth", 1)],
    result_item := "torch", required_level := 1, crafting_time := 1 }

def c9State : GameState :=
  { player := { name := "Adventurer", current_room := "hall",
                known_recipes := ["torch"] },
    crafting_recipes := [("torch", c9Recipe)] }

/-- The claim-side property of a move once the existence, open and lock
gates have passed: level gate, then required-item gate (first missing
fragment's message), then the success postconditions — room switch,
move-counter increment, destination visited, and the long description shown
exactly on a first visit. -/
def c4PostLock (s : GameState) (d : String) (e : Exit) : Prop :=
  if s.player.level < e.required_level then
    cmdMove s d = (s, "You need to be level " ++ toString e.required_level
      ++ " to go " ++ d ++ ".")
  else
    match e.required_items.find? (fun req => !inventoryHasFragment s req) with
    | some req => cmdMove s d = (s, "You need " ++ req ++ " to go " ++ d ++ ".")
    | none =>
      (cmdMove s d).1.player.current_room = e.destination ∧
      (cmdMove s d).1.player.moves = s.player.moves + 1 ∧
      (match s.rooms.lookup e.destination with
       | none => True
       | some nr =>
         (∃ nr', (cmdMove s d).1.rooms.lookup e.destination = some nr' ∧
            nr'.is_visited = true) ∧
         (cmdMove s d).2 = moveOutput d
           { s with player := { s.player with
               current_room := e.destination, moves := s.player.moves + 1 } } nr
           (if nr.is_visited then nr.description
            else nr.long_description.getD nr.description))

/-! ## Helper lemmas -/

theorem lookup_cons_hit (a k' : String) (b : β) (t : List (String × β))
    (h : a = k') : List.lookup k' ((a, b) :: t) = some b := by
  simp [List.lookup, h]

theorem lookup_cons_miss (a k' : String) (b : β) (t : List (String × β))
    (h : ¬ a = k') : List.lookup k' ((a, b) :: t) = List.lookup k' t := by
  have hb : (k' == a) = false := beq_eq_false_iff_ne.mpr (fun hh => h hh.symm)
  simp [List.lookup, hb]

theorem lookup_updateAssoc (l : List (String × α)) (k : String) (v : α) (k' : String) :
    (updateAssoc l k v).lookup k' =
      if k' = k then (l.lookup k).map (fun _ => v) else l.lookup k' := by
  induction l with
  | nil => by_cases h : k' = k <;> simp [updateAssoc, h]
  | cons p t ih =>
    obtain ⟨a, b⟩ := p
    by_cases hak : a = k
    · rw [show updateAssoc ((a, b) :: t) k v = (k, v) :: updateAssoc t k v from by
        simp [updateAssoc, hak]]
      by_cases hk' : k' = k
      · subst hk'
        rw [lookup_cons_hit _ _ _ _ rfl, if_pos rfl, lookup_cons_hit _ _ _ _ hak]
        rfl
      · rw [lookup_cons_miss _ _ _ _ (fun h => hk' h.symm), if_neg hk',
          lookup_cons_miss _ _ _ _ (by rw [hak]; exact fun h => hk' h.symm),
          ih, if_neg hk']
    · rw [show updateAssoc ((a, b) :: t) k v = (a, b) :: updateAssoc t k v from by
        simp [updateAssoc, hak]]
      by_cases hk'a : k' = a
      · subst hk'a
        rw [lookup_cons_hit _ _ _ _ rfl, if_neg hak, lookup_cons_hit _ _ _ _ rfl]
      · rw [lookup_cons_miss _ _ _ _ (fun h => hk'a h.symm), ih]
        by_cases hk'k : k' = k
        · rw [if_pos hk'k, if_pos hk'k, lookup_cons_miss _ _ _ _ hak]
        · rw [if_neg hk'k, if_neg hk'k,
            lookup_cons_miss _ _ _ _ (fun h => hk'a h.symm)]

/-! ## Claim theorems -/

/-- C8: for all integer attack and defense values and every random offset `r`
in `[-2, 2]`, the damage calculation returns
`max(1, max(1, attack - defense) + r)`, which is always at least 1 — the
floor is applied once before the random offset and again after it. -/
theorem c8_damage_floor (a d r : Int) (h1 : -2 ≤ r) (h2 : r ≤ 2) :
    calculateDamage a d r = max 1 (max 1 (a - d) + r) ∧
    1 ≤ calculateDamage a d r := by
  refine ⟨rfl, ?_⟩
  show 1 ≤ max 1 (max 1 (a - d) + r)
  exact le_max_left 1 _

/-- Witness for C8 at attack 5, defense 3, offset -2. -/
theorem c8_damage_floor_witness :
    ((-2 : Int) ≤ -2 ∧ (-2 : Int) ≤ 2) ∧
    (calculateDamage 5 3 (-2) = max 1 (max 1 (5 - 3) + -2) ∧
     1 ≤ calculateDamage 5 3 (-2)) :=
  ⟨⟨by decide, by decide⟩, c8_damage_floor 5 3 (-2) (by decide) (by decide)⟩

/-- C10: the interpreter's verb table maps `use` to the pure `_cmd_use`
handler, which returns the game state unchanged for every state and argument
list, and no table entry reaches the combat-time, potion-consuming
`CombatSystem.use_item`. -/
theorem c10_use_pure :
    commandsTable.lookup "use" = some Cmd.use ∧
    (∀ (s : GameState) (args : List String), (cmdUse s args).1 = s) ∧
    commandsTable.all (fun p => !(p.2 == Cmd.combatUseItem)) = true := by
  refine ⟨by decide, ?_, by decide⟩
  intro s args
  unfold cmdUse
  split <;> rfl

/-- C7 is violated by the code: in `start_combat`, a surprise attack
subtracts damage from the player's health with no clamping and no death
check.  At this concrete input the player ends at health -2 with
`is_alive` still true. -/
theorem c7_surprise_attack_unclamped :
    (startCombat c7State "g1" true 0).1.player.health = -2 ∧
    (startCombat c7State "g1" true 0).1.player.is_alive = true := by
  exact ⟨by decide, by decide⟩

/-- C2 is violated by the code: `_can_craft_recipe` tests
`not _player_has_material(material, quantity)`, Python truthiness on the
returned count, so one matching item satisfies a requirement of two.  Here
the player holds a single herb while the recipe needs two, yet crafting is
deemed eligible and `craft_item` proceeds past the eligibility check: it
consumes the held materials (the inventory ends empty) before crashing with
`AttributeError` at `crafted_item.id` — so the state is not left unchanged
as the claim requires. -/
theorem c2_truthiness_material_check :
    playerHasMaterial c2State "herb" 2 = 1 ∧
    canCraftRecipe c2State c2Recipe = true ∧
    (craftItem c2State "Health Potion").isAttrError = true ∧
    (craftItem c2State "Health Potion").state.player.inventory = [] := by
  exact ⟨by decide, by decide, by decide, by decide⟩

/-- C9: learning is idempotent — a recipe id already in the known set leaves
the whole state unchanged and reports "already known", while a first learn of
an existing recipe adds exactly that id. -/
theorem c9_learn_idempotent (s : GameState) (rid : String)
    (recipe : CraftingRecipe)
    (hfound : s.crafting_recipes.lookup rid = some recipe) :
    (s.player.known_recipes.contains rid = true →
      learnRecipe s rid = (s, "You already know the " ++ recipe.name ++ " recipe.")) ∧
    (s.player.known_recipes.contains rid = false →
      learnRecipe s rid =
        ({ s with player := { s.player with
            known_recipes := s.player.known_recipes ++ [rid] } },
         "You learn how to craft " ++ recipe.name ++ "!")) := by
  unfold learnRecipe
  rw [hfound]
  dsimp only
  constructor
  · intro h
    rw [if_pos h]
  · intro h
    rw [if_neg (by rw [h]; exact Bool.false_ne_true)]

/-- Witness for C9: re-learning the already-known torch recipe is a no-op. -/
theorem c9_learn_idempotent_witness :
    learnRecipe c9State "torch" = (c9State, "You already know the Torch recipe.") :=
  (c9_learn_idempotent c9State "torch" c9Recipe rfl).1 rfl

/-- C1 is violated by the code: the interpreter's item matching is Python
list membership — `target_name in [item.name.lower()] + item.keywords` — so
the target "sword" does not select an inventory item named "Iron Sword" with
no matching keyword, although "sword" is a substring of the name. -/
theorem c1_counterexample :
    claimItemMatches "sword" c1Sword = true ∧
    itemMatchesTarget "sword" c1Sword = false ∧
    cmdExamine c1State ["sword"] = "You don't see a 'sword' here." := by
  exact ⟨by decide, by decide, by decide⟩

/-- C3 is violated by the code: `_get_player_armor` sums only the armor,
helmet, boots and gloves slots, so an armor-bearing ring contributes
nothing, while the claim's six-slot sum counts it. -/
theorem c3_counterexample :
    getPlayerArmor c3State = 0 ∧ claimSixSlotArmorSum c3State = 5 := by
  exact ⟨by decide, by decide⟩

/-- C6 is violated by the code: only the literal key `goblin_defeated` is
special-cased, so `orc_defeated` is evaluated as an inventory substring
count even when a dead orc exists in the world. -/
theorem c6_counterexample :
    claimCheckRequirement c6State "orc_defeated" 1 = true ∧
    checkRequirement c6State "orc_defeated" 1 = false := by
  exact ⟨by decide, by decide⟩

/-- C6 amended: only the literal requirement key `goblin_defeated` is
evaluated as the world predicate "some goblin-type enemy has is_alive =
false"; `cave_explored` evaluates `deep_cavern`'s visited flag; every other
key — including `orc_defeated` and the other `<enemy-type>_defeated`
spellings — is a count of inventory items whose name contains the key as a
case-insensitive substring. -/
theorem c6_requirement_dispatch (s : GameState) (req : String) (count : Int) :
    checkRequirement s req count = checkRequirementSpec s req count := by
  unfold checkRequirement checkRequirementSpec
  by_cases h1 : (req == "goblin_defeated") = true
  · rw [if_pos h1, if_pos h1]
    rw [Bool.eq_iff_iff]
    simp [List.any_eq_true, Bool.and_eq_true, beq_iff_eq, Bool.not_eq_true']
  · rw [if_neg h1, if_neg h1]
    by_cases h2 : (req == "cave_explored") = true
    · rw [if_pos h2, if_pos h2]
      cases hl : s.rooms.lookup "deep_cavern" <;> simp [hl]
    · rw [if_neg h2, if_neg h2]
      rw [Bool.eq_iff_iff]
      simp [List.countP_eq_length_filter, ge_iff_le]

/-- C3 amended: the defense used when an enemy hits the player is the sum of
the armor values of the four slots armor, helmet, boots and gloves (ring and
amulet never contribute), and the player's post-hit health is the old health
minus the damage computed against that sum, clamped at zero. -/
theorem c3_armor_slots_amended (s : GameState) (enemyKey : String)
    (enemy : Enemy) (r : Int) :
    getPlayerArmor s = fourSlotArmorSum s ∧
    (enemyTurn s enemyKey enemy r false 0).1.player.health
      = max 0 (s.player.health - calculateDamage enemy.damage (fourSlotArmorSum s) r) ∧
    (∀ (room : Room) (targetName : String) (r1 : Int),
      s.rooms.lookup s.player.current_room = some room →
      selectAttackTarget s room targetName = some (enemyKey, enemy) →
      0 < enemy.health - calculateDamage
        (getWeaponDamage s + max 1 (Int.fdiv s.player.strength 3)) enemy.armor r1 →
      (attack s targetName r1 r false 0).1.enemies.lookup enemyKey
        = (s.enemies.lookup enemyKey).map (fun _ =>
            { enemy with
              health := (enemy.health - calculateDamage
                (getWeaponDamage s + max 1 (Int.fdiv s.player.strength 3))
                enemy.armor r1) })) := by
  have harmor : getPlayerArmor s = fourSlotArmorSum s := by
    unfold getPlayerArmor fourSlotArmorSum slotArmorValue
    simp only [List.map_cons, List.map_nil, List.sum_cons, List.sum_nil]
    ring
  refine ⟨harmor, ?_, ?_⟩
  · unfold enemyTurn
    rw [harmor]
    by_cases hdead : s.player.health - calculateDamage enemy.damage (fourSlotArmorSum s) r ≤ 0
    · rw [if_pos hdead, max_eq_left hdead]
    · rw [if_neg hdead]
      have hcond :
          ¬ (!enemy.special_abilities.isEmpty && false) = true := by simp
      rw [if_neg hcond]
      exact (max_eq_right (le_of_not_le hdead)).symm
  · intro room targetName r1 hroom hsel hsurv
    unfold attack
    rw [hroom]
    dsimp only
    rw [hsel]
    dsimp only
    rw [if_neg (by omega)]
    have henemies : ∀ (s1 : GameState) (e1 : Enemy),
        (enemyTurn s1 enemyKey e1 r false 0).1.enemies = s1.enemies := by
      intro s1 e1
      unfold enemyTurn
      by_cases hd : s1.player.health -
          calculateDamage e1.damage (getPlayerArmor s1) r ≤ 0
      · rw [if_pos hd]
      · rw [if_neg hd]
        have hcond : ¬ (!e1.special_abilities.isEmpty && false) = true := by simp
        rw [if_neg hcond]
    rw [henemies]
    rw [lookup_updateAssoc, if_pos rfl]

theorem examineScanItems_eq (s : GameState) (target : String) (ids : List String) :
    examineScanItems s target ids = (itemsOf s ids).find? (itemMatchesTarget target) := by
  induction ids with
  | nil => rfl
  | cons id rest ih =>
    simp only [examineScanItems, itemsOf, List.filterMap_cons]
    cases h : s.items.lookup id with
    | none =>
      dsimp only
      exact ih
    | some item =>
      dsimp only
      cases hm : itemMatchesTarget target item with
      | false =>
        rw [if_neg (by simp [hm]), List.find?_cons_of_neg _ (by simp [hm])]
        exact ih
      | true =>
        rw [List.find?_cons_of_pos _ hm]
        simp

theorem examineScanNpcs_eq (s : GameState) (target : String) (ids : List String) :
    examineScanNpcs s target ids =
      (ids.filterMap (fun id => s.npcs.lookup id)).find?
        (fun npc => pyInStr target (lowerString npc.name)) := by
  induction ids with
  | nil => rfl
  | cons id rest ih =>
    simp only [examineScanNpcs, List.filterMap_cons]
    cases h : s.npcs.lookup id with
    | none =>
      dsimp only
      exact ih
    | some npc =>
      dsimp only
      cases hm : pyInStr target (lowerString npc.name) with
      | false =>
        rw [if_neg (by simp [hm]), List.find?_cons_of_neg _ (by simp [hm])]
        exact ih
      | true =>
        rw [List.find?_cons_of_pos _ (by simp [hm])]
        simp

theorem examineScanEnemies_eq (s : GameState) (target : String) (ids : List String) :
    examineScanEnemies s target ids =
      (ids.filterMap (fun id => s.enemies.lookup id)).find?
        (fun enemy => pyInStr target (lowerString enemy.name)) := by
  induction ids with
  | nil => rfl
  | cons id rest ih =>
    simp only [examineScanEnemies, List.filterMap_cons]
    cases h : s.enemies.lookup id with
    | none =>
      dsimp only
      exact ih
    | some enemy =>
      dsimp only
      cases hm : pyInStr target (lowerString enemy.name) with
      | false =>
        rw [if_neg (by simp [hm]), List.find?_cons_of_neg _ (by simp [hm])]
        exact ih
      | true =>
        rw [List.find?_cons_of_pos _ (by simp [hm])]
        simp

theorem takeScan_eq (s : GameState) (roomId : String) (room : Room)
    (target : String) (ids : List String) :
    takeScan s roomId room target ids =
      match (ids.filterMap (fun id =>
          (s.items.lookup id).map (fun item => (id, item)))).find?
          (fun p => itemMatchesTarget target p.2) with
      | none => (s, "You don't see a '" ++ target ++ "' here.")
      | some (id, item) =>
        if !item.is_takeable then (s, "You can't take the " ++ item.name ++ ".")
        else if !item.is_visible then (s, "You don't see a " ++ item.name ++ " here.")
        else
          ({ s with
              rooms := updateAssoc s.rooms roomId
                { room with items := room.items.erase id },
              player := { s.player with
                inventory := s.player.inventory ++ [id],
                score := s.player.score + item.value } },
           "You take the " ++ item.name ++ ".") := by
  induction ids with
  | nil => rfl
  | cons id rest ih =>
    simp only [takeScan, List.filterMap_cons]
    cases h : s.items.lookup id with
    | none =>
      simp only [Option.map_none']
      exact ih
    | some item =>
      simp only [Option.map_some']
      cases hm : itemMatchesTarget target item with
      | false =>
        rw [if_neg (by simp [hm]), List.find?_cons_of_neg _ (by simp [hm])]
        exact ih
      | true =>
        rw [List.find?_cons_of_pos _ (by simpa using hm)]
        simp

theorem dropScan_eq (s : GameState) (roomId : String) (room : Room)
    (target : String) (ids : List String) :
    dropScan s roomId room target ids =
      match (ids.filterMap (fun id =>
          (s.items.lookup id).map (fun item => (id, item)))).find?
          (fun p => itemMatchesTarget target p.2) with
      | none => (s, "You don't have a '" ++ target ++ "'.")
      | some (id, item) =>
        ({ s with
            rooms := updateAssoc s.rooms roomId
              { room with items := room.items ++ [id] },
            player := { s.player with
              inventory := s.player.inventory.erase id } },
         "You drop the " ++ item.name ++ ".") := by
  induction ids with
  | nil => rfl
  | cons id rest ih =>
    simp only [dropScan, List.filterMap_cons]
    cases h : s.items.lookup id with
    | none =>
      simp only [Option.map_none']
      exact ih
    | some item =>
      simp only [Option.map_some']
      cases hm : itemMatchesTarget target item with
      | false =>
        rw [if_neg (by simp [hm]), List.find?_cons_of_neg _ (by simp [hm])]
        exact ih
      | true =>
        rw [List.find?_cons_of_pos _ (by simpa using hm)]
        simp

theorem useScan_eq (s : GameState) (target : String) (ids : List String) :
    useScan s target ids =
      match (itemsOf s ids).find? (itemMatchesTarget target) with
      | none => "You don't have a '" ++ target ++ "'."
      | some item =>
        match item.use_description with
        | some d => d
        | none => "You use the " ++ item.name ++ ", but nothing happens." := by
  induction ids with
  | nil => rfl
  | cons id rest ih =>
    simp only [useScan, itemsOf, List.filterMap_cons]
    cases h : s.items.lookup id with
    | none =>
      dsimp only
      exact ih
    | some item =>
      dsimp only
      cases hm : itemMatchesTarget target item with
      | false =>
        rw [if_neg (by simp [hm]), List.find?_cons_of_neg _ (by simp [hm])]
        exact ih
      | true =>
        rw [List.find?_cons_of_pos _ hm]
        simp

theorem equipScan_eq (s : GameState) (target : String) (ids : List String) :
    equipScan s target ids =
      (ids.filterMap (fun id =>
          (s.items.lookup id).map (fun item => (id, item)))).find?
        (fun p => itemMatchesTarget target p.2) := by
  induction ids with
  | nil => rfl
  | cons id rest ih =>
    simp only [equipScan, List.filterMap_cons]
    cases h : s.items.lookup id with
    | none =>
      simp only [Option.map_none']
      exact ih
    | some item =>
      simp only [Option.map_some']
      cases hm : itemMatchesTarget target item with
      | false =>
        rw [if_neg (by simp [hm]), List.find?_cons_of_neg _ (by simp [hm])]
        exact ih
      | true =>
        rw [List.find?_cons_of_pos _ (by simpa using hm)]
        simp

/-- C1 amended: for every command that resolves a free-text target against
an item pool — examine (inventory then room items), take (room items), drop,
use and equip (inventory) — a candidate item matches iff the lower-cased
target text exactly equals the candidate's lower-cased full name or exactly
equals one of its keyword strings; examine's NPC and enemy candidates match
iff the target is a substring of the lower-cased name; and the selected
candidate is the first match in the verb's fixed pool-priority order. -/
theorem c1_matching_amended (s : GameState) (args : List String) :
    cmdExamine s args = examineSpec s args ∧
    cmdTake s args = takeSpec s args ∧
    cmdDrop s args = dropSpec s args ∧
    cmdUse s args = useSpec s args ∧
    cmdEquip s args = equipSpec s args := by
  refine ⟨?_, ?_, ?_, ?_, ?_⟩
  · unfold cmdExamine examineSpec
    cases hempty : args.isEmpty with
    | true => rfl
    | false =>
      simp only [Bool.false_eq_true, if_false]
      cases hroom : s.rooms.lookup s.player.current_room with
      | none =>
        simp only [hroom]
        rw [examineScanItems_eq, examineScanItems_eq, examineScanNpcs_eq,
          examineScanEnemies_eq]
        rfl
      | some room =>
        simp only [hroom]
        rw [examineScanItems_eq, examineScanItems_eq, examineScanNpcs_eq,
          examineScanEnemies_eq]
        rfl
  · unfold cmdTake takeSpec
    cases hempty : args.isEmpty with
    | true => rfl
    | false =>
      simp only [Bool.false_eq_true, if_false]
      cases hroom : s.rooms.lookup s.player.current_room with
      | none => simp only [hroom]
      | some room =>
        simp only [hroom]
        rw [takeScan_eq]
  · unfold cmdDrop dropSpec
    cases hempty : args.isEmpty with
    | true => rfl
    | false =>
      simp only [Bool.false_eq_true, if_false]
      cases hroom : s.rooms.lookup s.player.current_room with
      | none => simp only [hroom]
      | some room =>
        simp only [hroom]
        rw [dropScan_eq]
  · unfold cmdUse useSpec
    cases hempty : args.isEmpty with
    | true => rfl
    | false =>
      simp only [Bool.false_eq_true, if_false]
      rw [useScan_eq]
      cases hfind : (itemsOf s s.player.inventory).find?
          (itemMatchesTarget (joinArgsLower args)) with
      | none => rfl
      | some item =>
        dsimp only
        cases item.use_description <;> rfl
  · unfold cmdEquip equipSpec
    cases hempty : args.isEmpty with
    | true => rfl
    | false =>
      simp only [Bool.false_eq_true, if_false]
      rw [equipScan_eq]

/-- Witness for C3's amended statement: one player attack against a goblin
with armor 2 leaves it at health 9 under a zero random offset. -/
theorem c3_armor_slots_amended_witness :
    (attack c3wState "goblin" 0 0 false 0).1.enemies.lookup "g1"
      = (c3wState.enemies.lookup "g1").map (fun _ =>
          ({ c3wEnemy with
             health := (c3wEnemy.health - calculateDamage
               (getWeaponDamage c3wState + max 1 (Int.fdiv c3wState.player.strength 3))
               c3wEnemy.armor 0) })) :=
  (c3_armor_slots_amended c3wState "g1" c3wEnemy 0).2.2 c3wRoom "goblin" 0
    (by decide) (by decide) (by decide)

/-- C5: when a kill brings accumulated experience to at least the current
threshold, exactly one level-up is applied — level +1, the old threshold is
subtracted from experience, the threshold becomes `int(threshold * 1.5)`,
max health +10 with health restored to the new max, and all four attributes
+1 — and no second level-up occurs within the same combat event even when
the remaining experience still meets the new threshold (the conclusion pins
the exact once-levelled values). -/
theorem c5_single_level_up (s : GameState) (targetName : String)
    (r1 r2 : Int) (sp : Bool) (ai : Nat) (room : Room) (enemyKey : String)
    (enemy : Enemy)
    (hroom : s.rooms.lookup s.player.current_room = some room)
    (hsel : selectAttackTarget s room targetName = some (enemyKey, enemy))
    (hkill : enemy.health - calculateDamage
      (getWeaponDamage s + max 1 (Int.fdiv s.player.strength 3)) enemy.armor r1 ≤ 0)
    (hxp : s.player.experience + enemy.experience_reward ≥ s.player.experience_to_next) :
    (attack s targetName r1 r2 sp ai).1.player.level = s.player.level + 1 ∧
    (attack s targetName r1 r2 sp ai).1.player.experience
      = s.player.experience + enemy.experience_reward - s.player.experience_to_next ∧
    (attack s targetName r1 r2 sp ai).1.player.experience_to_next
      = Int.tdiv (3 * s.player.experience_to_next) 2 ∧
    (attack s targetName r1 r2 sp ai).1.player.max_health = s.player.max_health + 10 ∧
    (attack s targetName r1 r2 sp ai).1.player.health = s.player.max_health + 10 ∧
    (attack s targetName r1 r2 sp ai).1.player.strength = s.player.strength + 1 ∧
    (attack s targetName r1 r2 sp ai).1.player.dexterity = s.player.dexterity + 1 ∧
    (attack s targetName r1 r2 sp ai).1.player.intelligence = s.player.intelligence + 1 ∧
    (attack s targetName r1 r2 sp ai).1.player.constitution = s.player.constitution + 1 ∧
    (attack s targetName r1 r2 sp ai).1.player.gold = s.player.gold + enemy.gold_reward := by
  unfold attack
  rw [hroom]
  dsimp only
  rw [hsel]
  dsimp only
  rw [if_pos hkill]
  rw [if_pos hxp]
  by_cases hinv : (!enemy.inventory.isEmpty) = true
  · rw [if_pos hinv]
    exact ⟨rfl, rfl, rfl, rfl, rfl, rfl, rfl, rfl, rfl, rfl⟩
  · rw [if_neg hinv]
    exact ⟨rfl, rfl, rfl, rfl, rfl, rfl, rfl, rfl, rfl, rfl⟩

/-- Witness for C5: the goblin kill takes the player from experience 95/100
to one level-up with carry-over 195 and new threshold 150; the final
conjunct shows the carried-over experience still meets the new threshold,
yet the level rose by exactly one. -/
theorem c5_single_level_up_witness :
    ((attack c5State "" 0 0 false 0).1.player.level = c5State.player.level + 1 ∧
     (attack c5State "" 0 0 false 0).1.player.experience
       = c5State.player.experience + c5Goblin.experience_reward
           - c5State.player.experience_to_next ∧
     (attack c5State "" 0 0 false 0).1.player.experience_to_next
       = Int.tdiv (3 * c5State.player.experience_to_next) 2 ∧
     (attack c5State "" 0 0 false 0).1.player.max_health
       = c5State.player.max_health + 10 ∧
     (attack c5State "" 0 0 false 0).1.player.health
       = c5State.player.max_health + 10 ∧
     (attack c5State "" 0 0 false 0).1.player.strength = c5State.player.strength + 1 ∧
     (attack c5State "" 0 0 false 0).1.player.dexterity = c5State.player.dexterity + 1 ∧
     (attack c5State "" 0 0 false 0).1.player.intelligence
       = c5State.player.intelligence + 1 ∧
     (attack c5State "" 0 0 false 0).1.player.constitution
       = c5State.player.constitution + 1 ∧
     (attack c5State "" 0 0 false 0).1.player.gold
       = c5State.player.gold + c5Goblin.gold_reward) ∧
    (attack c5State "" 0 0 false 0).1.player.experience_to_next
      ≤ (attack c5State "" 0 0 false 0).1.player.experience :=
  ⟨c5_single_level_up c5State "" 0 0 false 0 c5Room "goblin" c5Goblin
     (by decide) (by decide) (by decide) (by decide),
   by decide⟩

/-- C4: the traversal gates of a move are evaluated in the fixed order
exit-existence, is_open, is_locked (passable only when a required key is
configured and held), minimum level, required item fragments; the first
failing gate's message is returned with the state unchanged; on success the
current room becomes the exit's destination, the move counter increments by
one, the destination's long description is shown only on its first visit,
and the visited flag goes false→true and is never reset. -/
theorem c4_move_gates (s : GameState) (d : String) :
    (∀ (id : String) (room : Room), s.rooms.lookup id = some room →
      room.is_visited = true →
      ∃ room', (cmdMove s d).1.rooms.lookup id = some room' ∧
        room'.is_visited = true) ∧
    (match parseDirection d with
     | none => (cmdMove s d).1 = s
     | some dir =>
       match s.rooms.lookup s.player.current_room with
       | none => (cmdMove s d).1 = s
       | some room =>
         match room.exits.lookup dir with
         | none => cmdMove s d = (s, "You can't go " ++ d ++ " from here.")
         | some e =>
           if e.is_open = false then
             cmdMove s d = (s, "The exit to the " ++ d ++ " is closed.")
           else
             match e.is_locked, e.required_key with
             | true, none =>
               cmdMove s d = (s, "The exit to the " ++ d ++ " is locked.")
             | true, some k =>
               if s.player.inventory.contains k = false then
                 cmdMove s d =
                   (s, "The exit to the " ++ d ++ " is locked. You need a key.")
               else c4PostLock s d e
             | false, _ => c4PostLock s d e) := by
  have hrooms : (cmdMove s d).1.rooms = s.rooms ∨
      (∃ dest nr, s.rooms.lookup dest = some nr ∧
        (cmdMove s d).1.rooms
          = updateAssoc s.rooms dest { nr with is_visited := true }) := by
    cases hpd : parseDirection d with
    | none => exact Or.inl (by simp only [cmdMove, hpd])
    | some dir =>
      cases hcr : s.rooms.lookup s.player.current_room with
      | none => exact Or.inl (by simp only [cmdMove, hpd, hcr])
      | some room =>
        cases hex : room.exits.lookup dir with
        | none => exact Or.inl (by simp only [cmdMove, hpd, hcr, hex])
        | some e =>
          cases ho : e.is_open with
          | false =>
            exact Or.inl (by
              simp only [cmdMove, hpd, hcr, hex, ho, Bool.not_false, if_true])
          | true =>
            cases hlk : e.is_locked with
            | true =>
              cases hrk : e.required_key with
              | none =>
                exact Or.inl (by
                  simp only [cmdMove, hpd, hcr, hex, ho, hlk, hrk,
                    Bool.not_true, Bool.false_eq_true, if_false, Bool.and_self,
                    if_true])
              | some k =>
                cases hck : s.player.inventory.contains k with
                | false =>
                  exact Or.inl (by
                    simp only [cmdMove, hpd, hcr, hex, ho, hlk, hrk, hck,
                      Bool.not_true, Bool.not_false, Bool.false_eq_true,
                      if_false, Bool.true_and, if_true])
                | true =>
                  have hl : (e.is_locked &&
                      match e.required_key with
                      | some k => !(s.player.inventory.contains k)
                      | none => true) = false := by
                    simp only [hlk, hrk, hck, Bool.not_true, Bool.true_and,
                      Bool.and_false]
                  by_cases hlv : s.player.level < e.required_level
                  · exact Or.inl (by
                      simp only [cmdMove, hpd, hcr, hex, ho, hl,
                        Bool.not_true, Bool.false_eq_true, if_false, hlv,
                        if_true])
                  · cases hfi : e.required_items.find?
                        (fun req => !inventoryHasFragment s req) with
                    | some req =>
                      exact Or.inl (by
                        simp only [cmdMove, hpd, hcr, hex, ho, hl,
                          Bool.not_true, Bool.false_eq_true, if_false, hlv,
                          hfi])
                    | none =>
                      cases hdest : s.rooms.lookup e.destination with
                      | none =>
                        exact Or.inl (by
                          simp only [cmdMove, hpd, hcr, hex, ho, hl,
                            Bool.not_true, Bool.false_eq_true, if_false, hlv,
                            hfi, hdest])
                      | some nr =>
                        cases hv : nr.is_visited with
                        | true =>
                          exact Or.inl (by
                            simp only [cmdMove, hpd, hcr, hex, ho, hl,
                              Bool.not_true, Bool.false_eq_true, if_false, hlv,
                              hfi, hdest, hv, if_true])
                        | false =>
                          exact Or.inr ⟨e.destination, nr, hdest, by
                            simp only [cmdMove, hpd, hcr, hex, ho, hl,
                              Bool.not_true, Bool.false_eq_true, if_false, hlv,
                              hfi, hdest, hv]⟩
            | false =>
              have hl : (e.is_locked &&
                  match e.required_key with
                  | some k => !(s.player.inventory.contains k)
                  | none => true) = false := by
                simp only [hlk, Bool.false_and]
              by_cases hlv : s.player.level < e.required_level
              · exact Or.inl (by
                  simp only [cmdMove, hpd, hcr, hex, ho, hl,
                    Bool.not_true, Bool.false_eq_true, if_false, hlv, if_true])
              · cases hfi : e.required_items.find?
                    (fun req => !inventoryHasFragment s req) with
                | some req =>
                  exact Or.inl (by
                    simp only [cmdMove, hpd, hcr, hex, ho, hl,
                      Bool.not_true, Bool.false_eq_true, if_false, hlv, hfi])
                | none =>
                  cases hdest : s.rooms.lookup e.destination with
                  | none =>
                    exact Or.inl (by
                      simp only [cmdMove, hpd, hcr, hex, ho, hl,
                        Bool.not_true, Bool.false_eq_true, if_false, hlv, hfi,
                        hdest])
                  | some nr =>
                    cases hv : nr.is_visited with
                    | true =>
                      exact Or.inl (by
                        simp only [cmdMove, hpd, hcr, hex, ho, hl,
                          Bool.not_true, Bool.false_eq_true, if_false, hlv,
                          hfi, hdest, hv, if_true])
                    | false =>
                      exact Or.inr ⟨e.destination, nr, hdest, by
                        simp only [cmdMove, hpd, hcr, hex, ho, hl,
                          Bool.not_true, Bool.false_eq_true, if_false, hlv,
                          hfi, hdest, hv]⟩
  have hmono : ∀ (id : String) (room : Room), s.rooms.lookup id = some room →
      room.is_visited = true →
      ∃ room', (cmdMove s d).1.rooms.lookup id = some room' ∧
        room'.is_visited = true := by
    intro id room hid hvis
    rcases hrooms with h | ⟨dest, nr, hdest, h⟩
    · exact ⟨room, by rw [h, hid], hvis⟩
    · rw [h, lookup_updateAssoc]
      by_cases hidd : id = dest
      · rw [if_pos hidd, hdest, Option.map_some']
        exact ⟨{ nr with is_visited := true }, rfl, rfl⟩
      · rw [if_neg hidd]
        exact ⟨room, hid, hvis⟩
  refine ⟨hmono, ?_⟩
  cases hpd : parseDirection d with
  | none => simp only [cmdMove, hpd]
  | some dir =>
    cases hcr : s.rooms.lookup s.player.current_room with
    | none => simp only [cmdMove, hpd, hcr]
    | some room =>
      cases hex : room.exits.lookup dir with
      | none => simp only [cmdMove, hpd, hcr, hex]
      | some e =>
        cases ho : e.is_open with
        | false =>
          simp only [cmdMove, hpd, hcr, hex, ho, Bool.not_false, if_true,
            eq_self_iff_true]
        | true =>
          simp only [hex]
          rw [if_neg (by simp [ho])]
          have hpass : (e.is_locked &&
              match e.required_key with
              | some k => !(s.player.inventory.contains k)
              | none => true) = false → c4PostLock s d e := by
            intro hl
            unfold c4PostLock
            by_cases hlv : s.player.level < e.required_level
            · rw [if_pos hlv]
              simp only [cmdMove, hpd, hcr, hex, ho, hl, Bool.not_true,
                Bool.false_eq_true, if_false, hlv, if_true]
            · rw [if_neg hlv]
              cases hfi : e.required_items.find?
                  (fun req => !inventoryHasFragment s req) with
              | some req =>
                simp only [cmdMove, hpd, hcr, hex, ho, hl, Bool.not_true,
                  Bool.false_eq_true, if_false, hlv, hfi]
              | none =>
                cases hdest : s.rooms.lookup e.destination with
                | none =>
                  refine ⟨?_, ?_, ?_⟩
                  · simp only [cmdMove, hpd, hcr, hex, ho, hl, Bool.not_true,
                      Bool.false_eq_true, if_false, hlv, hfi, hdest]
                  · simp only [cmdMove, hpd, hcr, hex, ho, hl, Bool.not_true,
                      Bool.false_eq_true, if_false, hlv, hfi, hdest]
                  · exact trivial
                | some nr =>
                  cases hv : nr.is_visited with
                  | true =>
                    refine ⟨?_, ?_, ?_⟩
                    · simp only [cmdMove, hpd, hcr, hex, ho, hl, Bool.not_true,
                        Bool.false_eq_true, if_false, hlv, hfi, hdest, hv,
                        if_true]
                    · simp only [cmdMove, hpd, hcr, hex, ho, hl, Bool.not_true,
                        Bool.false_eq_true, if_false, hlv, hfi, hdest, hv,
                        if_true]
                    · dsimp only
                      refine ⟨⟨nr, ?_, hv⟩, ?_⟩
                      · simp only [cmdMove, hpd, hcr, hex, ho, hl,
                          Bool.not_true, Bool.false_eq_true, if_false, hlv,
                          hfi, hdest, hv, if_true]
                      · simp only [cmdMove, hpd, hcr, hex, ho, hl,
                          Bool.not_true, Bool.false_eq_true, if_false, hlv,
                          hfi, hdest, hv, if_true]
                  | false =>
                    refine ⟨?_, ?_, ?_⟩
                    · simp only [cmdMove, hpd, hcr, hex, ho, hl, Bool.not_true,
                        Bool.false_eq_true, if_false, hlv, hfi, hdest, hv]
                    · simp only [cmdMove, hpd, hcr, hex, ho, hl, Bool.not_true,
                        Bool.false_eq_true, if_false, hlv, hfi, hdest, hv]
                    · dsimp only
                      refine ⟨⟨{ nr with is_visited := true }, ?_, rfl⟩, ?_⟩
                      · simp only [cmdMove, hpd, hcr, hex, ho, hl,
                          Bool.not_true, Bool.false_eq_true, if_false, hlv,
                          hfi, hdest, hv]
                        rw [lookup_updateAssoc, if_pos rfl, hdest,
                          Option.map_some']
                      · simp only [cmdMove, hpd, hcr, hex, ho, hl,
                          Bool.not_true, Bool.false_eq_true, if_false, hlv,
                          hfi, hdest, hv]
          cases hlk : e.is_locked with
          | false =>
            exact hpass (by simp only [hlk, Bool.false_and])
          | true =>
            cases hrk : e.required_key with
            | none =>
              simp only [cmdMove, hpd, hcr, hex, ho, hlk, hrk, Bool.not_true,
                Bool.false_eq_true, if_false, Bool.and_self, if_true]
            | some k =>
              dsimp only
              cases hck : s.player.inventory.contains k with
              | false =>
                rw [if_pos rfl]
                simp only [cmdMove, hpd, hcr, hex, ho, hlk, hrk, hck,
                  Bool.not_true, Bool.not_false, Bool.false_eq_true, if_false,
                  Bool.true_and, if_true]
              | true =>
                rw [if_neg (by simp)]
                exact hpass (by
                  simp only [hlk, hrk, hck, Bool.not_true, Bool.and_false])

/-- Witness for C4: moving north through an open, unlocked exit keeps the
already-visited origin room's flag, reassigns the current room and
increments the move counter by one. -/
theorem c4_move_gates_witness :
    (∃ room', (cmdMove c4State "north").1.rooms.lookup "r1" = some room' ∧
       room'.is_visited = true) ∧
    (cmdMove c4State "north").1.player.current_room = "r2" ∧
    (cmdMove c4State "north").1.player.moves = c4State.player.moves + 1 :=
  ⟨(c4_move_gates c4State "north").1 "r1" c4RoomA (by decide) (by decide),
   by decide, by decide⟩

end TextAdventure
